import Mathlib

/-!
Verification of the webhook dispatch / JIT-credential-to-build-trigger pipeline of
google/github_actions_on_gcp.

The repository ships several revisions of the same pipeline:
* `src/pkg/webhook/webhook.go` — an older snapshot of `processRequest` (inline
  credential exchange, environment-variable build step); modelled below as
  `processRequestOld`.
* `src/unnamed/part_005`, second document (lines 200-366) — the latest revision
  of `processRequest` (nil-action guard, missing-field validation, in_progress /
  completed branches); this is the revision exercised by
  `src/pkg/webhook/webhook_test.go`; modelled below as `processRequestV2`.
* `src/pkg/webhook/github.go` — `generateJITConfig`, the credential exchanger.

Bytes are modelled as `List Nat`; Go `*T` pointers as `Option`; a Go nil-pointer
dereference (panic) is modelled by the result field `out = none`.  External
collaborators (GitHub installation client, GitHub JIT-config API, the URL
parser, Cloud Build) are modelled by an `Env` record carrying the outcome each
call would return; the calls actually issued are recorded in a trace.
-/

/-- The default runner label, `defaultRunnerLabel` in webhook.go. -/
def defaultRunnerLabel : String := "self-hosted"

/-- The `runnerStartedMsg` constant in webhook.go. -/
def runnerStartedMsg : String := "runner started"

/-- go-github `WorkflowJob` (the fields the pipeline reads).  Go pointer fields
are `Option`; `Labels []string` is a plain list (a nil slice and an empty slice
behave identically under `slices.Contains`).  Timestamps are modelled as
integers (their rendering into log attributes is abstracted; no claim inspects
it). -/
structure WorkflowJob where
  jobID : Option Int
  runID : Option Int
  name : Option String
  labels : List String
  createdAt : Option Int
  startedAt : Option Int
  completedAt : Option Int
  conclusion : Option String

/-- go-github `Installation` (only the `ID` field is read). -/
structure Installation where
  id : Option Int

/-- go-github `Organization` (only the `Login` field is read). -/
structure Organization where
  login : Option String

/-- go-github `Repository` (only the `Name` field is read). -/
structure Repository where
  name : Option String

/-- go-github `WorkflowJobEvent` (the fields the pipeline reads). -/
structure WorkflowJobEvent where
  action : Option String
  workflowJob : Option WorkflowJob
  installation : Option Installation
  org : Option Organization
  repo : Option Repository

/-- The result of `github.ParseWebHook`: either the one event type this system
acts on, or any other event type (`other` carries the Go type name used in the
`%T` / `%s` rendering of the unexpected-event error). -/
inductive GHEvent where
  | workflowJob (ev : WorkflowJobEvent)
  | other (typeName : String)

/-- go-github `JITRunnerConfig`: the credential-exchange response.
`EncodedJITConfig *string` is the opaque JIT credential. -/
structure JITRunnerConfig where
  encodedJITConfig : Option String

/-- go-github `GenerateJITConfigRequest` as filled in by github.go:
a runner name, `RunnerGroupID: 1`, and the fixed label set. -/
structure JITReq where
  name : String
  runnerGroupID : Nat
  labels : List String

/-- cloudbuildpb `BuildStep` (the fields the pipeline sets). -/
structure BuildStep where
  id : String
  name : String
  entrypoint : Option String
  args : List String
  env : List String

/-- cloudbuildpb `BuildOptions.LoggingMode` (only one value is used). -/
inductive LoggingMode where
  | cloudLoggingOnly

/-- cloudbuildpb `BuildOptions`: logging mode and optional worker pool. -/
structure BuildOptions where
  logging : LoggingMode
  pool : Option String

/-- cloudbuildpb `Build`.  The Go `Substitutions` map is modelled as an
association list; only lookups are observable. -/
structure Build where
  serviceAccount : String
  steps : List BuildStep
  options : BuildOptions
  substitutions : List (String × String)

/-- cloudbuildpb `CreateBuildRequest`. -/
structure CreateBuildRequest where
  parent : String
  projectId : String
  build : Build

/-- Lookup in a substitutions association list. -/
def lookupSubst : List (String × String) → String → Option String
  | [], _ => none
  | (k, v) :: rest, key => if k = key then some v else lookupSubst rest key

/-- Go struct `apiResponse` from webhook.go: status code, response message, and the error
(which is only logged, never written to the HTTP response). -/
structure ApiResponse where
  code : Nat
  message : String
  error : Option String

/-- A value attached to a structured log record (slog takes `any`; the
renderings of numbers and durations are abstracted — no claim inspects them). -/
inductive LogVal where
  | str (s : String)
  | int (n : Int)
  | optStr (s : Option String)
  | labelList (ls : List String)
  | bytes (b : List Nat)

/-- One structured log record: message plus key/value attributes. -/
structure LogEntry where
  msg : String
  attrs : List (String × LogVal)

/-- An outbound call recorded by the model: the GitHub installation lookup, the
JIT-config generation API call (the credential exchange), or the Cloud Build
submission. -/
inductive Call where
  | installationForID (id : String)
  | generateJIT (org : String) (repo : Option String) (req : JITReq)
  | createBuild (req : CreateBuildRequest)

/-- Is this trace entry the credential exchange (the JIT-config API call)? -/
def Call.isCredentialExchange : Call → Bool
  | .generateJIT _ _ _ => true
  | _ => false

/-- Is this trace entry the build submission? -/
def Call.isBuildSubmission : Call → Bool
  | .createBuild _ => true
  | _ => false

/-- The observable result of one request: the outbound calls issued, the log
records emitted, and the response (`none` models a Go nil-pointer panic, in
which case no response is written). -/
structure ProcResult where
  calls : List Call
  logs : List LogEntry
  out : Option ApiResponse

/-- Go struct `Server` configuration fields read by the pipeline (union of the fields the
two revisions use: the old revision reads `buildLocation`, the latest reads
`runnerLocation`). -/
structure ServerCfg where
  buildLocation : String
  runnerLocation : String
  ghAPIBaseURL : String
  runnerProjectID : String
  runnerImageName : String
  runnerImageTag : String
  runnerRepositoryID : String
  runnerServiceAccount : String
  runnerWorkerPoolID : String
  webhookSecret : List Nat

/-- Outcomes the external collaborators would return, one per call site:
the installation lookup, the base-URL parse, the JIT-config API call, and the
Cloud Build submission.  Errors are carried as Go error strings. -/
structure Env where
  installationResult : Except String Unit
  urlResult : Except String Unit
  jitResult : Except String JITRunnerConfig
  buildResult : Except String Unit

/-- Signature-verification failure cases distinguished internally (never in the
response body): header absent, header not of the `sha256=<hex>` form, digest
mismatch. -/
inductive VError where
  | missingHeader
  | malformedHeader
  | badSignature

/-- Internal error text for each verification failure (goes only into the
logged error, never into the response message). -/
def vErrMsg : VError → String
  | .missingHeader => "missing signature"
  | .malformedHeader => "invalid signature header"
  | .badSignature => "payload signature check failed"

/-- Lowercase hex digit. -/
def hexDigit (n : Nat) : Char :=
  if n < 10 then Char.ofNat (48 + n) else Char.ofNat (87 + n)

/-- Two lowercase hex digits for one byte. -/
def hexByte (b : Nat) : String :=
  String.mk [hexDigit (b / 16 % 16), hexDigit (b % 16)]

/-- Lowercase hex encoding of a byte string. -/
def hexEncode : List Nat → String
  | [] => ""
  | b :: bs => hexByte b ++ hexEncode bs

/-- Strip the literal `sha256=` scheme from a signature header value. -/
def dropScheme (h : String) : Option String :=
  match h.data with
  | 's' :: 'h' :: 'a' :: '2' :: '5' :: '6' :: '=' :: rest => some (String.mk rest)
  | _ => none

/-- Modelled from the spec: go-github's `ValidatePayload` (signature
verification) is library code, not part of this repository's src; §4.1 of the
spec specifies it: recompute an HMAC-SHA256 over the raw body bytes using the
secret as key, hex-encode, and compare against the header value stripped of its
`sha256=` prefix; a missing or malformed header and a digest mismatch all fail.
The HMAC-SHA256 digest itself is an external primitive and is passed in as the
`hmacFn` parameter. -/
def checkSignature (hmacFn : List Nat → List Nat → List Nat)
    (secret body : List Nat) (header : Option String) : Except VError Unit :=
  match header with
  | none => .error .missingHeader
  | some h =>
    match dropScheme h with
    | none => .error .malformedHeader
    | some sig =>
      if sig = hexEncode (hmacFn secret body) then .ok () else .error .badSignature

/-- The raw request as the pipeline sees it: exact body bytes, the
`X-Hub-Signature-256` header (if present), and the `X-Github-Event` header. -/
structure GoRequest where
  body : List Nat
  signatureHeader : Option String
  eventType : String

/-- One character of Go's `html.EscapeString`. -/
def htmlEscapeChar (c : Char) : String :=
  if c = '&' then "&amp;"
  else if c = '\'' then "&#39;"
  else if c = '<' then "&lt;"
  else if c = '>' then "&gt;"
  else if c = '"' then "&#34;"
  else String.mk [c]

/-- Helper: escape a character list. -/
def escapeChars : List Char → String
  | [] => ""
  | c :: cs => htmlEscapeChar c ++ escapeChars cs

/-- Go's `html.EscapeString`: escapes `&`, `'`, `<`, `>`, `"`. -/
def htmlEscapeString (s : String) : String := escapeChars s.data

/-- Join with single spaces (Go `%s` of a `[]string` prints `[a b c]`). -/
def joinSpace : List String → String
  | [] => ""
  | [x] => x
  | x :: xs => x ++ " " ++ joinSpace xs

/-- Go `fmt` rendering of a `[]string` with `%s`: `[a b c]`. -/
def goFmtStrList (ls : List String) : String := "[" ++ joinSpace ls ++ "]"

/-- The old revision's runner name `fmt.Sprintf("GCP-%d", event.WorkflowJob.RunID)`:
Go formats the `*int64` pointer itself (printing a machine address, which is
outside this model); rendered here as the pointed-to value (or `nil`).  No claim
inspects this string. -/
def runnerNameOld (runID : Option Int) : String :=
  "GCP-" ++ (match runID with
             | some n => toString n
             | none => "nil")

/-- The build constructed by the old revision (src/pkg/webhook/webhook.go,
lines 117-137): a single step running the runner image directly, with the JIT
credential injected as an environment variable through the
`_ENCODED_JIT_CONFIG` substitution; no command-line arguments. -/
def mkBuildOld (s : ServerCfg) (token : String) : Build :=
  { serviceAccount := s.runnerServiceAccount
  , steps := [{ id := "run"
              , name := "$_REPOSITORY_ID/$_IMAGE_NAME:$_IMAGE_TAG"
              , entrypoint := none
              , args := []
              , env := ["ENCODED_JIT_CONFIG=$\x7b_ENCODED_JIT_CONFIG\x7d"] }]
  , options := { logging := .cloudLoggingOnly, pool := none }
  , substitutions := [("_ENCODED_JIT_CONFIG", token),
                      ("_REPOSITORY_ID", s.runnerRepositoryID),
                      ("_IMAGE_NAME", s.runnerImageName),
                      ("_IMAGE_TAG", s.runnerImageTag)] }

/-- The old revision's `CreateBuildRequest` (webhook.go lines 139-143); the
parent uses `s.buildLocation`. -/
def mkBuildReqOld (s : ServerCfg) (token : String) : CreateBuildRequest :=
  { parent := "projects/" ++ s.runnerProjectID ++ "/locations/" ++ s.buildLocation
  , projectId := s.runnerProjectID
  , build := mkBuildOld s token }

/-- The docker-run command line of the latest revision's build step
(src/unnamed/part_005 lines 279-284). -/
def dockerRunArg : String :=
  "docker run --privileged --security-opt seccomp=unconfined --security-opt apparmor=unconfined -e ENCODED_JIT_CONFIG=$_ENCODED_JIT_CONFIG $_REPOSITORY_ID/$_IMAGE_NAME:$_IMAGE_TAG"

/-- The build constructed by the latest revision (src/unnamed/part_005 lines
272-302): a docker build step whose bash command carries the substitution
variables, pinned to the worker pool when one is configured. -/
def mkBuildV2 (s : ServerCfg) (token : String) : Build :=
  { serviceAccount := s.runnerServiceAccount
  , steps := [{ id := "run"
              , name := "gcr.io/cloud-builders/docker"
              , entrypoint := some "bash"
              , args := ["-c", dockerRunArg]
              , env := [] }]
  , options := { logging := .cloudLoggingOnly
               , pool := if s.runnerWorkerPoolID = "" then none
                         else some s.runnerWorkerPoolID }
  , substitutions := [("_ENCODED_JIT_CONFIG", token),
                      ("_REPOSITORY_ID", s.runnerRepositoryID),
                      ("_IMAGE_NAME", s.runnerImageName),
                      ("_IMAGE_TAG", s.runnerImageTag)] }

/-- The latest revision's `CreateBuildRequest` (src/unnamed/part_005 lines
304-308); the parent uses `s.runnerLocation`. -/
def mkBuildReqV2 (s : ServerCfg) (token : String) : CreateBuildRequest :=
  { parent := "projects/" ++ s.runnerProjectID ++ "/locations/" ++ s.runnerLocation
  , projectId := s.runnerProjectID
  , build := mkBuildV2 s token }

/-- Result of the credential exchanger (`generateJITConfig` in github.go):
the calls it issued and either the JIT config or the error `apiResponse`. -/
structure GenJITResult where
  calls : List Call
  result : Except ApiResponse JITRunnerConfig

/-- Function `generateJITConfig` from src/pkg/webhook/github.go (lines 37-78): look up
the installation, build a scoped client against the configured base URL, then
request a repo-scoped (or org-scoped) JIT runner config with runner-group 1 and
the fixed labels.  The revision of this helper matching the latest webhook
revision receives the runner name directly (per its call site,
src/unnamed/part_005 line 266); the github.go snapshot computes the same field
from a run id.  The name is passed in here; no claim inspects it. -/
def generateJITConfig (s : ServerCfg) (env : Env) (installationID : Int)
    (org : String) (repo : Option String) (name : String) : GenJITResult :=
  match env.installationResult with
  | .error e =>
    ⟨[.installationForID (toString installationID)],
     .error ⟨500, "failed to setup installation client", some e⟩⟩
  | .ok _ =>
    match env.urlResult with
    | .error e =>
      ⟨[.installationForID (toString installationID)],
       .error ⟨500, "failed to set github base URL", some e⟩⟩
    | .ok _ =>
      match env.jitResult with
      | .error e =>
        ⟨[.installationForID (toString installationID),
          .generateJIT org repo ⟨name, 1, [defaultRunnerLabel, "Linux", "X64"]⟩],
         .error ⟨500, "failed to generate jitconfig", some e⟩⟩
      | .ok jc =>
        ⟨[.installationForID (toString installationID),
          .generateJIT org repo ⟨name, 1, [defaultRunnerLabel, "Linux", "X64"]⟩],
         .ok jc⟩

/-- Function `processRequest` of the old revision, src/pkg/webhook/webhook.go lines
64-154.  Control flow is modelled branch by branch; each return site builds the
full `ProcResult` (trace, logs, response).  `out = none` marks the Go nil
dereferences: the `fmt.Sprintf` of `*event.Action` on line 81 when the action
is nil, `event.WorkflowJob.Labels` on line 84, `*event.Installation.ID` on line
89, `*event.Org.Login` / `*event.Repo.Name` on line 108, and
`*jitconfig.EncodedJITConfig` on line 132. -/
def processRequestOld (hmacFn : List Nat → List Nat → List Nat) (s : ServerCfg)
    (parse : String → List Nat → Except String GHEvent) (env : Env)
    (r : GoRequest) : ProcResult :=
  match checkSignature hmacFn s.webhookSecret r.body r.signatureHeader with
  | .error e => ⟨[], [], some ⟨500, "failed to validate payload", some (vErrMsg e)⟩⟩
  | .ok _ =>
    match parse r.eventType r.body with
    | .error e => ⟨[], [], some ⟨500, "failed to parse webhook", some e⟩⟩
    | .ok (.other t) =>
      ⟨[], [], some ⟨500, "unexpected event type dispatched from webhook",
                     some ("event type: " ++ t)⟩⟩
    | .ok (.workflowJob ev) =>
      match ev.action with
      | none => ⟨[], [], none⟩
      | some a =>
        if a = "queued" then
          match ev.workflowJob with
          | none => ⟨[], [], none⟩
          | some wj =>
            if wj.labels.contains defaultRunnerLabel = false then
              ⟨[], [⟨"no action taken for labels", [("labels", .labelList wj.labels)]⟩],
               some ⟨200, "no action taken for labels: " ++ goFmtStrList wj.labels, none⟩⟩
            else
              match ev.installation with
              | none => ⟨[], [], none⟩
              | some inst =>
                match inst.id with
                | none => ⟨[], [], none⟩
                | some iid =>
                  match env.installationResult with
                  | .error e =>
                    ⟨[.installationForID (toString iid)], [],
                     some ⟨500, "failed to setup installation client", some e⟩⟩
                  | .ok _ =>
                    match env.urlResult with
                    | .error e =>
                      ⟨[.installationForID (toString iid)], [],
                       some ⟨500, "failed to set github base URL", some e⟩⟩
                    | .ok _ =>
                      match ev.org with
                      | none => ⟨[.installationForID (toString iid)], [], none⟩
                      | some o =>
                        match o.login with
                        | none => ⟨[.installationForID (toString iid)], [], none⟩
                        | some login =>
                          match ev.repo with
                          | none => ⟨[.installationForID (toString iid)], [], none⟩
                          | some rp =>
                            match rp.name with
                            | none => ⟨[.installationForID (toString iid)], [], none⟩
                            | some rname =>
                              match env.jitResult with
                              | .error e =>
                                ⟨[.installationForID (toString iid),
                                  .generateJIT login (some rname)
                                    ⟨runnerNameOld wj.runID, 1,
                                     [defaultRunnerLabel, "Linux", "X64"]⟩], [],
                                 some ⟨500, "failed to generate jitconfig", some e⟩⟩
                              | .ok jc =>
                                match jc.encodedJITConfig with
                                | none =>
                                  ⟨[.installationForID (toString iid),
                                    .generateJIT login (some rname)
                                      ⟨runnerNameOld wj.runID, 1,
                                       [defaultRunnerLabel, "Linux", "X64"]⟩], [], none⟩
                                | some token =>
                                  match env.buildResult with
                                  | .error e =>
                                    ⟨[.installationForID (toString iid),
                                      .generateJIT login (some rname)
                                        ⟨runnerNameOld wj.runID, 1,
                                         [defaultRunnerLabel, "Linux", "X64"]⟩,
                                      .createBuild (mkBuildReqOld s token)], [],
                                     some ⟨500, "failed to run build", some e⟩⟩
                                  | .ok _ =>
                                    ⟨[.installationForID (toString iid),
                                      .generateJIT login (some rname)
                                        ⟨runnerNameOld wj.runID, 1,
                                         [defaultRunnerLabel, "Linux", "X64"]⟩,
                                      .createBuild (mkBuildReqOld s token)],
                                     [⟨runnerStartedMsg,
                                       [("runner_id", .str (runnerNameOld wj.runID))]⟩],
                                     some ⟨200, runnerStartedMsg, none⟩⟩
        else
          ⟨[], [],
           some ⟨200, "no action taken for action type: \"" ++ a ++ "\"", none⟩⟩

/-- Function `handleWebhook` of the old revision (webhook.go lines 46-62): write the
response's status code, then the HTML-escaped message.  `none` when
`processRequest` panics (nothing is written). -/
def handleWebhookOld (hmacFn : List Nat → List Nat → List Nat) (s : ServerCfg)
    (parse : String → List Nat → Except String GHEvent) (env : Env)
    (r : GoRequest) : Option (Nat × String) :=
  match (processRequestOld hmacFn s parse env r).out with
  | none => none
  | some resp => some (resp.code, htmlEscapeString resp.message)

/-- Function `getTimeString` from src/unnamed/part_005 (lines 371-377): `N/A` for a nil
timestamp; the RFC3339 rendering of a present timestamp is abstracted as its
numeric value (no claim inspects it). -/
def getTimeString : Option Int → String
  | none => "N/A"
  | some t => toString t

/-- The base log fields of the latest revision (src/unnamed/part_005 lines
231-249): action, run id, job id, job name, derived ids, plus whichever
timestamps are present. -/
def baseLogFields (a : String) (rid jid : Int) (wj : WorkflowJob)
    (jobIDStr runnerID : String) : List (String × LogVal) :=
  [("action_event_name", .str a),
   ("gh_run_id", .int rid),
   ("gh_job_id", .int jid),
   ("gh_job_name", .optStr wj.name),
   ("job_id", .str jobIDStr),
   ("runner_id", .str runnerID)]
  ++ (match wj.createdAt with
      | some t => [("created_at", .str (getTimeString (some t)))]
      | none => [])
  ++ (match wj.startedAt with
      | some t => [("started_at", .str (getTimeString (some t)))]
      | none => [])
  ++ (match wj.completedAt with
      | some t => [("completed_at", .str (getTimeString (some t)))]
      | none => [])

/-- The missing-identity check of the latest revision (src/unnamed/part_005
line 260): `event.Installation == nil || event.Installation.ID == nil ||
event.Org == nil || event.Org.Login == nil || event.Repo == nil ||
event.Repo.Name == nil`. -/
def missingIDFields (inst : Option Installation) (org : Option Organization)
    (repo : Option Repository) : Bool :=
  (match inst with
   | none => true
   | some i => i.id.isNone)
  || (match org with
      | none => true
      | some o => o.login.isNone)
  || (match repo with
      | none => true
      | some rp => rp.name.isNone)

/-- The error wrapped on missing identity fields (src/unnamed/part_005 line
261). -/
def missingFieldsErrMsg : String :=
  "event is missing required fields (installation, org, or repo)"

/-- Function `processRequest` of the latest revision, src/unnamed/part_005 lines
200-366.  `out = none` marks the Go nil dereferences: after the nil-action
guard, the base log fields dereference `*event.WorkflowJob.RunID` and
`*event.WorkflowJob.ID` (lines 233-234) without presence checks, and the queued
path dereferences `*jitConfig.EncodedJITConfig` (line 291). -/
def processRequestV2 (hmacFn : List Nat → List Nat → List Nat) (s : ServerCfg)
    (parse : String → List Nat → Except String GHEvent) (env : Env)
    (r : GoRequest) : ProcResult :=
  match checkSignature hmacFn s.webhookSecret r.body r.signatureHeader with
  | .error e => ⟨[], [], some ⟨500, "failed to validate payload", some (vErrMsg e)⟩⟩
  | .ok _ =>
    match parse r.eventType r.body with
    | .error e => ⟨[], [], some ⟨500, "failed to parse webhook", some e⟩⟩
    | .ok (.other t) =>
      ⟨[], [⟨"Received unhandled event type",
             [("event_type", .str t), ("payload", .bytes r.body)]⟩],
       some ⟨500, "unexpected event type dispatched from webhook",
             some ("event type: " ++ t)⟩⟩
    | .ok (.workflowJob ev) =>
      match ev.action with
      | none =>
        ⟨[], [⟨"no action taken for nil action type", []⟩],
         some ⟨200, "no action taken for nil action type", none⟩⟩
      | some a =>
        let jobIDStr : String :=
          match ev.workflowJob with
          | some wj =>
            (match wj.jobID with
             | some j => toString j
             | none => "")
          | none => ""
        let runnerID := "GCP-" ++ jobIDStr
        match ev.workflowJob with
        | none => ⟨[], [], none⟩
        | some wj =>
          match wj.runID with
          | none => ⟨[], [], none⟩
          | some rid =>
            match wj.jobID with
            | none => ⟨[], [], none⟩
            | some jid =>
              let base := baseLogFields a rid jid wj jobIDStr runnerID
              if a = "queued" then
                let queuedLog : LogEntry := ⟨"Workflow job queued", base⟩
                if wj.labels.contains defaultRunnerLabel = false then
                  ⟨[], [queuedLog,
                        ⟨"no action taken for labels",
                         base ++ [("labels", .labelList wj.labels)]⟩],
                   some ⟨200, "no action taken for labels: " ++ goFmtStrList wj.labels,
                         none⟩⟩
                else if missingIDFields ev.installation ev.org ev.repo then
                  ⟨[], [queuedLog,
                        ⟨"cannot generate JIT config due to missing event data",
                         base ++ [("error", .str missingFieldsErrMsg)]⟩],
                   some ⟨400, "unexpected event payload struture",
                         some missingFieldsErrMsg⟩⟩
                else
                  match ev.installation, ev.org, ev.repo with
                  | some inst, some o, some rp =>
                    (match inst.id, o.login, rp.name with
                     | some iid, some login, some rname =>
                       let g := generateJITConfig s env iid login (some rname) runnerID
                       (match g.result with
                        | .error errResp =>
                          ⟨g.calls,
                           [queuedLog,
                            ⟨"failed to generate JIT config",
                             base ++ [("error", .optStr errResp.error),
                                      ("response_message", .str errResp.message)]⟩],
                           some errResp⟩
                        | .ok jc =>
                          (match jc.encodedJITConfig with
                           | none => ⟨g.calls, [queuedLog], none⟩
                           | some token =>
                             (match env.buildResult with
                              | .error e =>
                                ⟨g.calls ++ [.createBuild (mkBuildReqV2 s token)],
                                 [queuedLog,
                                  ⟨"failed to run Cloud Build for runner",
                                   base ++ [("error", .str e)]⟩],
                                 some ⟨500, "failed to run build", some e⟩⟩
                              | .ok _ =>
                                ⟨g.calls ++ [.createBuild (mkBuildReqV2 s token)],
                                 [queuedLog, ⟨runnerStartedMsg, base⟩],
                                 some ⟨200, runnerStartedMsg, none⟩⟩)))
                     | _, _, _ => ⟨[], [queuedLog], none⟩)
                  | _, _, _ => ⟨[], [queuedLog], none⟩
              else if a = "in_progress" then
                let lf := base ++
                  (match wj.createdAt, wj.startedAt with
                   | some c, some st => [("duration_queued_seconds", .int (st - c))]
                   | _, _ => [])
                ⟨[], [⟨"Workflow job in progress", lf⟩],
                 some ⟨200, "workflow job in progress event logged", none⟩⟩
              else if a = "completed" then
                let lf := base ++
                  (match wj.conclusion with
                   | some c => [("conclusion", .str c)]
                   | none => []) ++
                  (match wj.startedAt, wj.completedAt with
                   | some st, some cp => [("duration_in_progress_seconds", .int (cp - st))]
                   | _, _ => []) ++
                  (match wj.createdAt, wj.completedAt with
                   | some c, some cp => [("duration_total_seconds", .int (cp - c))]
                   | _, _ => [])
                ⟨[], [⟨"Workflow job completed", lf⟩],
                 some ⟨200, "workflow job completed event logged", none⟩⟩
              else
                ⟨[], [⟨"no action taken for unhandled workflow job action type",
                       base ++ [("action", .str a)]⟩],
                 some ⟨200, "no action taken for action type: \"" ++ a ++ "\"", none⟩⟩

/-- A stand-in digest function for concrete witnesses (the claims hold for
every `hmacFn`; the witnesses instantiate it). -/
def cHmac : List Nat → List Nat → List Nat := fun _ _ => [171]

/-- Concrete webhook secret bytes for witnesses. -/
def cSecretBytes : List Nat := [7, 7]

/-- Concrete server configuration for witnesses. -/
def cServer : ServerCfg :=
  ⟨"us-west1", "us-west1", "https://api.github.com", "proj", "runner-image",
   "latest", "repo-id", "sa@proj", "", cSecretBytes⟩

/-- Concrete `workflow_job` request with a valid signature:
`hexEncode [171] = "ab"`. -/
def cReqWJ : GoRequest := ⟨[1, 2, 3], some "sha256=ab", "workflow_job"⟩

/-- Concrete collaborator outcomes: everything succeeds, the credential
exchange returns the token `"Hello"`. -/
def cEnvOK : Env := ⟨.ok (), .ok (), .ok ⟨some "Hello"⟩, .ok ()⟩

/-- Concrete queued job labelled `self-hosted` (run 456, job 789). -/
def cJob : WorkflowJob :=
  ⟨some 789, some 456, some "build-job", ["self-hosted"], some 100, none, none, none⟩

/-- Concrete queued event: installation 123, org google, repo webhook. -/
def cEventQueued : WorkflowJobEvent :=
  ⟨some "queued", some cJob, some ⟨some 123⟩, some ⟨some "google"⟩, some ⟨some "webhook"⟩⟩

/-- Parser outcome delivering the concrete queued event. -/
def cParseQueued : String → List Nat → Except String GHEvent :=
  fun _ _ => .ok (.workflowJob cEventQueued)

example : hexEncode [171] = "ab" := by decide
example : checkSignature cHmac cSecretBytes [1,2,3] (some "sha256=ab") = .ok () := by rfl
example : (processRequestOld cHmac cServer cParseQueued cEnvOK cReqWJ).out =
    some ⟨200, runnerStartedMsg, none⟩ := by rfl
example : (processRequestV2 cHmac cServer cParseQueued cEnvOK cReqWJ).out =
    some ⟨200, runnerStartedMsg, none⟩ := by rfl
example : (processRequestOld cHmac cServer cParseQueued cEnvOK cReqWJ).calls.length = 3 := by rfl
example : (processRequestV2 cHmac cServer cParseQueued cEnvOK cReqWJ).calls.length = 3 := by rfl

/-- Claim C1: for every verified workflow_job event with action "queued" whose
label set contains the default runner label and whose installation id, org
login, and repo name are present, `processRequest` makes exactly one
credential-exchange call followed by exactly one build-submission call, the
submitted build's `_ENCODED_JIT_CONFIG` substitution equals the
`EncodedJITConfig` returned by the exchange, and the response is 200 with body
"runner started". -/
theorem c1_queued_dispatch_flow
    (hmacFn : List Nat → List Nat → List Nat) (s : ServerCfg)
    (parse : String → List Nat → Except String GHEvent) (env : Env) (r : GoRequest)
    (wj : WorkflowJob) (instID : Int) (orgLogin repoName token : String)
    (hsig : checkSignature hmacFn s.webhookSecret r.body r.signatureHeader = .ok ())
    (hparse : parse r.eventType r.body =
      .ok (.workflowJob ⟨some "queued", some wj, some ⟨some instID⟩,
                         some ⟨some orgLogin⟩, some ⟨some repoName⟩⟩))
    (hlab : wj.labels.contains defaultRunnerLabel = true)
    (hinst : env.installationResult = .ok ())
    (hurl : env.urlResult = .ok ())
    (hjit : env.jitResult = .ok ⟨some token⟩)
    (hbuild : env.buildResult = .ok ()) :
    (processRequestOld hmacFn s parse env r).calls =
      [.installationForID (toString instID),
       .generateJIT orgLogin (some repoName)
         ⟨runnerNameOld wj.runID, 1, [defaultRunnerLabel, "Linux", "X64"]⟩,
       .createBuild (mkBuildReqOld s token)]
    ∧ ((processRequestOld hmacFn s parse env r).calls.filter
         Call.isCredentialExchange).length = 1
    ∧ ((processRequestOld hmacFn s parse env r).calls.filter
         Call.isBuildSubmission).length = 1
    ∧ lookupSubst (mkBuildReqOld s token).build.substitutions "_ENCODED_JIT_CONFIG"
        = some token
    ∧ (processRequestOld hmacFn s parse env r).out = some ⟨200, runnerStartedMsg, none⟩ := by
  have hmem : defaultRunnerLabel ∈ wj.labels := by
    simpa using hlab
  unfold processRequestOld
  rw [hsig, hparse, hinst, hurl, hjit, hbuild]
  simp [hmem, mkBuildReqOld, mkBuildOld, lookupSubst,
        Call.isCredentialExchange, Call.isBuildSubmission]

/-- Witness for C1 at the spec's end-to-end scenario: label self-hosted,
installation 123, org google, repo webhook, token "Hello". -/
theorem c1_queued_dispatch_flow_witness :
    (processRequestOld cHmac cServer cParseQueued cEnvOK cReqWJ).calls =
      [.installationForID (toString (123 : Int)),
       .generateJIT "google" (some "webhook")
         ⟨runnerNameOld cJob.runID, 1, [defaultRunnerLabel, "Linux", "X64"]⟩,
       .createBuild (mkBuildReqOld cServer "Hello")]
    ∧ ((processRequestOld cHmac cServer cParseQueued cEnvOK cReqWJ).calls.filter
         Call.isCredentialExchange).length = 1
    ∧ ((processRequestOld cHmac cServer cParseQueued cEnvOK cReqWJ).calls.filter
         Call.isBuildSubmission).length = 1
    ∧ lookupSubst (mkBuildReqOld cServer "Hello").build.substitutions "_ENCODED_JIT_CONFIG"
        = some "Hello"
    ∧ (processRequestOld cHmac cServer cParseQueued cEnvOK cReqWJ).out =
        some ⟨200, runnerStartedMsg, none⟩ :=
  c1_queued_dispatch_flow cHmac cServer cParseQueued cEnvOK cReqWJ cJob 123
    "google" "webhook" "Hello" rfl rfl rfl rfl rfl rfl rfl

/-- Claim C2: for every accepted "queued" event the JIT credential appears only
as the value of the `_ENCODED_JIT_CONFIG` build substitution: the build step
injects it as an environment variable through the substitution mechanism and
has no command-line arguments, and two runs that differ only in the credential
value produce identical logs, identical responses, and traces differing only in
that one substitution entry; the response body is one of two fixed constants. -/
theorem c2_credential_isolation
    (hmacFn : List Nat → List Nat → List Nat) (s : ServerCfg)
    (parse : String → List Nat → Except String GHEvent) (env : Env) (r : GoRequest)
    (wj : WorkflowJob) (instID : Int) (orgLogin repoName : String) (t t2 : String)
    (hsig : checkSignature hmacFn s.webhookSecret r.body r.signatureHeader = .ok ())
    (hparse : parse r.eventType r.body =
      .ok (.workflowJob ⟨some "queued", some wj, some ⟨some instID⟩,
                         some ⟨some orgLogin⟩, some ⟨some repoName⟩⟩))
    (hlab : wj.labels.contains defaultRunnerLabel = true)
    (hinst : env.installationResult = .ok ())
    (hurl : env.urlResult = .ok ()) :
    mkBuildOld s t =
      { serviceAccount := s.runnerServiceAccount
      , steps := [{ id := "run"
                  , name := "$_REPOSITORY_ID/$_IMAGE_NAME:$_IMAGE_TAG"
                  , entrypoint := none
                  , args := []
                  , env := ["ENCODED_JIT_CONFIG=$\x7b_ENCODED_JIT_CONFIG\x7d"] }]
      , options := { logging := .cloudLoggingOnly, pool := none }
      , substitutions := [("_ENCODED_JIT_CONFIG", t),
                          ("_REPOSITORY_ID", s.runnerRepositoryID),
                          ("_IMAGE_NAME", s.runnerImageName),
                          ("_IMAGE_TAG", s.runnerImageTag)] }
    ∧ (processRequestOld hmacFn s parse { env with jitResult := .ok ⟨some t⟩ } r).logs =
        (processRequestOld hmacFn s parse { env with jitResult := .ok ⟨some t2⟩ } r).logs
    ∧ (processRequestOld hmacFn s parse { env with jitResult := .ok ⟨some t⟩ } r).out =
        (processRequestOld hmacFn s parse { env with jitResult := .ok ⟨some t2⟩ } r).out
    ∧ (∀ resp,
         (processRequestOld hmacFn s parse { env with jitResult := .ok ⟨some t⟩ } r).out
           = some resp →
         resp.message = runnerStartedMsg ∨ resp.message = "failed to run build")
    ∧ (processRequestOld hmacFn s parse { env with jitResult := .ok ⟨some t⟩ } r).calls =
        [.installationForID (toString instID),
         .generateJIT orgLogin (some repoName)
           ⟨runnerNameOld wj.runID, 1, [defaultRunnerLabel, "Linux", "X64"]⟩,
         .createBuild (mkBuildReqOld s t)] := by
  have hmem : defaultRunnerLabel ∈ wj.labels := by
    simpa using hlab
  rcases hb : env.buildResult with e | u
  all_goals
    unfold processRequestOld
  all_goals
    rw [hsig, hparse]
  all_goals
    simp [hmem, hinst, hurl, hb, mkBuildOld, mkBuildReqOld]

/-- Witness for C2 at tokens "Hello" and "World". -/
theorem c2_credential_isolation_witness :
    mkBuildOld cServer "Hello" =
      { serviceAccount := cServer.runnerServiceAccount
      , steps := [{ id := "run"
                  , name := "$_REPOSITORY_ID/$_IMAGE_NAME:$_IMAGE_TAG"
                  , entrypoint := none
                  , args := []
                  , env := ["ENCODED_JIT_CONFIG=$\x7b_ENCODED_JIT_CONFIG\x7d"] }]
      , options := { logging := .cloudLoggingOnly, pool := none }
      , substitutions := [("_ENCODED_JIT_CONFIG", "Hello"),
                          ("_REPOSITORY_ID", cServer.runnerRepositoryID),
                          ("_IMAGE_NAME", cServer.runnerImageName),
                          ("_IMAGE_TAG", cServer.runnerImageTag)] }
    ∧ (processRequestOld cHmac cServer cParseQueued
         { cEnvOK with jitResult := .ok ⟨some "Hello"⟩ } cReqWJ).logs =
        (processRequestOld cHmac cServer cParseQueued
         { cEnvOK with jitResult := .ok ⟨some "World"⟩ } cReqWJ).logs
    ∧ (processRequestOld cHmac cServer cParseQueued
         { cEnvOK with jitResult := .ok ⟨some "Hello"⟩ } cReqWJ).out =
        (processRequestOld cHmac cServer cParseQueued
         { cEnvOK with jitResult := .ok ⟨some "World"⟩ } cReqWJ).out
    ∧ (∀ resp,
         (processRequestOld cHmac cServer cParseQueued
           { cEnvOK with jitResult := .ok ⟨some "Hello"⟩ } cReqWJ).out = some resp →
         resp.message = runnerStartedMsg ∨ resp.message = "failed to run build")
    ∧ (processRequestOld cHmac cServer cParseQueued
         { cEnvOK with jitResult := .ok ⟨some "Hello"⟩ } cReqWJ).calls =
        [.installationForID (toString (123 : Int)),
         .generateJIT "google" (some "webhook")
           ⟨runnerNameOld cJob.runID, 1, [defaultRunnerLabel, "Linux", "X64"]⟩,
         .createBuild (mkBuildReqOld cServer "Hello")] :=
  c2_credential_isolation cHmac cServer cParseQueued cEnvOK cReqWJ cJob 123
    "google" "webhook" "Hello" "World" rfl rfl rfl rfl rfl

/-- Concrete validly-signed request carrying a push event. -/
def cReqPush : GoRequest := ⟨[1, 2, 3], some "sha256=ab", "push"⟩

/-- Parser outcome delivering a non-workflow_job event (a push event). -/
def cParsePush : String → List Nat → Except String GHEvent :=
  fun _ _ => .ok (.other "*github.PushEvent")

/-- Counterexample to claim C3 as stated: a validly signed request whose event
type is `push` (not `workflow_job`) gets HTTP 500 — an error status, not a 2xx
no-op success. -/
theorem c3_counterexample :
    (processRequestV2 cHmac cServer cParsePush cEnvOK cReqPush).out =
      some ⟨500, "unexpected event type dispatched from webhook",
            some "event type: *github.PushEvent"⟩
    ∧ (∀ resp,
        (processRequestV2 cHmac cServer cParsePush cEnvOK cReqPush).out = some resp →
        ¬ (200 ≤ resp.code ∧ resp.code ≤ 299)) := by
  constructor
  · rfl
  · intro resp h
    have hr : resp = ⟨500, "unexpected event type dispatched from webhook",
                      some "event type: *github.PushEvent"⟩ := by
      have hout : (processRequestV2 cHmac cServer cParsePush cEnvOK cReqPush).out =
          some ⟨500, "unexpected event type dispatched from webhook",
                some "event type: *github.PushEvent"⟩ := rfl
      rw [hout] at h
      exact (Option.some.inj h).symm
    subst hr
    decide

/-- Claim C3 (amended): for every request with a valid signature whose payload
parses to an event other than a workflow_job event, `processRequest` returns
HTTP 500 with the generic message "unexpected event type dispatched from
webhook" and a non-nil error — never a 2xx no-op success — and makes no
downstream calls. -/
theorem c3_unhandled_event_500
    (hmacFn : List Nat → List Nat → List Nat) (s : ServerCfg)
    (parse : String → List Nat → Except String GHEvent) (env : Env) (r : GoRequest)
    (t : String)
    (hsig : checkSignature hmacFn s.webhookSecret r.body r.signatureHeader = .ok ())
    (hparse : parse r.eventType r.body = .ok (.other t)) :
    (processRequestV2 hmacFn s parse env r).out =
      some ⟨500, "unexpected event type dispatched from webhook",
            some ("event type: " ++ t)⟩
    ∧ (processRequestV2 hmacFn s parse env r).calls = [] := by
  unfold processRequestV2
  rw [hsig, hparse]
  simp

/-- Witness for the amended C3 at the concrete push request. -/
theorem c3_unhandled_event_500_witness :
    (processRequestV2 cHmac cServer cParsePush cEnvOK cReqPush).out =
      some ⟨500, "unexpected event type dispatched from webhook",
            some ("event type: " ++ "*github.PushEvent")⟩
    ∧ (processRequestV2 cHmac cServer cParsePush cEnvOK cReqPush).calls = [] :=
  c3_unhandled_event_500 cHmac cServer cParsePush cEnvOK cReqPush
    "*github.PushEvent" rfl rfl

/-- Claim C4: for every verified workflow_job event whose action field is
absent (nil), `processRequest` returns a 200 no-op success without ever
dereferencing the nil action pointer (no panic: the result is a response, not
`none`), and makes no downstream calls. -/
theorem c4_nil_action_noop
    (hmacFn : List Nat → List Nat → List Nat) (s : ServerCfg)
    (parse : String → List Nat → Except String GHEvent) (env : Env) (r : GoRequest)
    (wjOpt : Option WorkflowJob) (instOpt : Option Installation)
    (orgOpt : Option Organization) (repoOpt : Option Repository)
    (hsig : checkSignature hmacFn s.webhookSecret r.body r.signatureHeader = .ok ())
    (hparse : parse r.eventType r.body =
      .ok (.workflowJob ⟨none, wjOpt, instOpt, orgOpt, repoOpt⟩)) :
    (processRequestV2 hmacFn s parse env r).out =
      some ⟨200, "no action taken for nil action type", none⟩
    ∧ (processRequestV2 hmacFn s parse env r).calls = [] := by
  unfold processRequestV2
  rw [hsig, hparse]
  simp

/-- Concrete verified workflow_job event with a nil action (and, for good
measure, no job at all). -/
def cParseNilAction : String → List Nat → Except String GHEvent :=
  fun _ _ => .ok (.workflowJob ⟨none, none, none, none, none⟩)

/-- Witness for C4. -/
theorem c4_nil_action_noop_witness :
    (processRequestV2 cHmac cServer cParseNilAction cEnvOK cReqWJ).out =
      some ⟨200, "no action taken for nil action type", none⟩
    ∧ (processRequestV2 cHmac cServer cParseNilAction cEnvOK cReqWJ).calls = [] :=
  c4_nil_action_noop cHmac cServer cParseNilAction cEnvOK cReqWJ
    none none none none rfl rfl

/-- Auxiliary: for a verified workflow_job "queued" event whose default label,
run id, and job id are present but whose installation id, org login, or repo
name is missing, `processRequest` returns the 400 client-error outcome — not a
server error — and makes no downstream calls.  (Without the run-id/job-id
presence assumptions the code panics first; see the C5 theorem below.) -/
theorem missing_fields_400_when_ids_present
    (hmacFn : List Nat → List Nat → List Nat) (s : ServerCfg)
    (parse : String → List Nat → Except String GHEvent) (env : Env) (r : GoRequest)
    (wj : WorkflowJob) (instOpt : Option Installation)
    (orgOpt : Option Organization) (repoOpt : Option Repository)
    (hsig : checkSignature hmacFn s.webhookSecret r.body r.signatureHeader = .ok ())
    (hparse : parse r.eventType r.body =
      .ok (.workflowJob ⟨some "queued", some wj, instOpt, orgOpt, repoOpt⟩))
    (hrid : wj.runID.isSome = true) (hjid : wj.jobID.isSome = true)
    (hlab : wj.labels.contains defaultRunnerLabel = true)
    (hmiss : missingIDFields instOpt orgOpt repoOpt = true) :
    (processRequestV2 hmacFn s parse env r).out =
      some ⟨400, "unexpected event payload struture", some missingFieldsErrMsg⟩
    ∧ (processRequestV2 hmacFn s parse env r).calls = [] := by
  have hmem : defaultRunnerLabel ∈ wj.labels := by
    simpa using hlab
  rcases hr : wj.runID with _ | rid
  · rw [hr] at hrid
    simp at hrid
  rcases hj : wj.jobID with _ | jid
  · rw [hj] at hjid
    simp at hjid
  unfold processRequestV2
  rw [hsig, hparse]
  simp [hr, hj, hmem, hmiss]

/-- Concrete queued event with the default label but no installation, org, or
repo. -/
def cParseMissing : String → List Nat → Except String GHEvent :=
  fun _ _ => .ok (.workflowJob ⟨some "queued", some cJob, none, none, none⟩)

/-- Concrete instance of the auxiliary 400 lemma. -/
theorem missing_fields_400_when_ids_present_instance :
    (processRequestV2 cHmac cServer cParseMissing cEnvOK cReqWJ).out =
      some ⟨400, "unexpected event payload struture", some missingFieldsErrMsg⟩
    ∧ (processRequestV2 cHmac cServer cParseMissing cEnvOK cReqWJ).calls = [] :=
  missing_fields_400_when_ids_present cHmac cServer cParseMissing cEnvOK cReqWJ
    cJob none none none rfl rfl rfl rfl rfl rfl

/-- Concrete verified workflow_job "queued" event carrying the default label
whose installation, org, and repo are all absent and whose job also lacks a run
id — a malformed queued payload as claim C5 describes. -/
def cParseQueuedMissingIDs : String → List Nat → Except String GHEvent :=
  fun _ _ => .ok (.workflowJob
    ⟨some "queued",
     some ⟨some 789, none, some "build-job", ["self-hosted"], some 100, none, none, none⟩,
     none, none, none⟩)

/-- Claim C5, evaluated at the failing input: a verified workflow_job "queued"
event missing its installation/org/repo (and, as GitHub's optional fields
allow, its run id) makes no downstream calls — but instead of the claimed 400
client-error outcome the code dereferences the nil `event.WorkflowJob.RunID`
while assembling its log fields (src/unnamed/part_005 line 233), before its own
missing-fields check on line 260, and panics: no response is produced. -/
theorem c5_missing_fields_panics :
    (processRequestV2 cHmac cServer cParseQueuedMissingIDs cEnvOK cReqWJ).out = none
    ∧ (processRequestV2 cHmac cServer cParseQueuedMissingIDs cEnvOK cReqWJ).calls = [] := by
  constructor
  · rfl
  · rfl

/-- Claim C6: for every verified workflow_job "queued" event whose label set
does not contain the default runner label, the outcome is a 200 no-op success
with body "no action taken for labels: [<labels>]", and neither the credential
exchange nor the build dispatcher is invoked. -/
theorem c6_label_mismatch_noop
    (hmacFn : List Nat → List Nat → List Nat) (s : ServerCfg)
    (parse : String → List Nat → Except String GHEvent) (env : Env) (r : GoRequest)
    (wj : WorkflowJob) (instOpt : Option Installation)
    (orgOpt : Option Organization) (repoOpt : Option Repository)
    (hsig : checkSignature hmacFn s.webhookSecret r.body r.signatureHeader = .ok ())
    (hparse : parse r.eventType r.body =
      .ok (.workflowJob ⟨some "queued", some wj, instOpt, orgOpt, repoOpt⟩))
    (hlab : wj.labels.contains defaultRunnerLabel = false) :
    (processRequestOld hmacFn s parse env r).out =
      some ⟨200, "no action taken for labels: " ++ goFmtStrList wj.labels, none⟩
    ∧ (processRequestOld hmacFn s parse env r).calls = [] := by
  have hmem : defaultRunnerLabel ∉ wj.labels := by
    simpa using hlab
  unfold processRequestOld
  rw [hsig, hparse]
  simp [hmem]

/-- Concrete queued event labelled only `other-label`. -/
def cJobOther : WorkflowJob :=
  ⟨some 789, some 456, some "build-job", ["other-label"], some 100, none, none, none⟩

/-- Parser outcome for the `other-label` scenario. -/
def cParseOtherLabel : String → List Nat → Except String GHEvent :=
  fun _ _ => .ok (.workflowJob ⟨some "queued", some cJobOther, some ⟨some 123⟩,
                                some ⟨some "google"⟩, some ⟨some "webhook"⟩⟩)

/-- Witness for C6 at the spec's end-to-end scenario: label `other-label`,
response body "no action taken for labels: [other-label]", zero calls. -/
theorem c6_label_mismatch_noop_witness :
    (processRequestOld cHmac cServer cParseOtherLabel cEnvOK cReqWJ).out =
      some ⟨200, "no action taken for labels: " ++ goFmtStrList cJobOther.labels, none⟩
    ∧ (processRequestOld cHmac cServer cParseOtherLabel cEnvOK cReqWJ).calls = [] :=
  c6_label_mismatch_noop cHmac cServer cParseOtherLabel cEnvOK cReqWJ
    cJobOther (some ⟨some 123⟩) (some ⟨some "google"⟩) (some ⟨some "webhook"⟩) rfl rfl rfl

example : "no action taken for labels: " ++ goFmtStrList cJobOther.labels =
    "no action taken for labels: [other-label]" := by rfl

/-- Concrete verified workflow_job `in_progress` event whose job has no run id
(GitHub marks job fields optional; the spec's §9 requires presence checks). -/
def cJobNoRunID : WorkflowJob :=
  ⟨some 789, none, some "build-job", ["self-hosted"], some 100, some 200, none, none⟩

/-- Parser outcome for the in_progress event with an absent run id. -/
def cParseInProgressNoRunID : String → List Nat → Except String GHEvent :=
  fun _ _ => .ok (.workflowJob ⟨some "in_progress", some cJobNoRunID,
                                some ⟨some 123⟩, some ⟨some "google"⟩,
                                some ⟨some "webhook"⟩⟩)

/-- Claim C7, evaluated at the failing input: a verified workflow_job event
with action `in_progress` whose job lacks a run id makes no downstream calls —
but instead of the claimed terminal no-op success, the code dereferences the
nil `event.WorkflowJob.RunID` while assembling its log fields
(src/unnamed/part_005 line 233) and panics: no response is produced. -/
theorem c7_nil_runid_panics :
    (processRequestV2 cHmac cServer cParseInProgressNoRunID cEnvOK cReqWJ).out = none
    ∧ (processRequestV2 cHmac cServer cParseInProgressNoRunID cEnvOK cReqWJ).calls = [] := by
  constructor
  · rfl
  · rfl

/-- Claim C8: for every request whose signature header is missing, malformed,
or does not match the HMAC of the body under the server's secret, the response
is the 500 status with the fixed generic body "failed to validate payload" —
the same constant for every failure kind and every payload, so the body neither
echoes the request nor distinguishes a bad signature from a missing header —
and no downstream call or log is produced. -/
theorem c8_invalid_signature_generic_500
    (hmacFn : List Nat → List Nat → List Nat) (s : ServerCfg)
    (parse : String → List Nat → Except String GHEvent) (env : Env) (r : GoRequest)
    (e : VError)
    (hsig : checkSignature hmacFn s.webhookSecret r.body r.signatureHeader = .error e) :
    processRequestOld hmacFn s parse env r =
      ⟨[], [], some ⟨500, "failed to validate payload", some (vErrMsg e)⟩⟩ := by
  unfold processRequestOld
  rw [hsig]

/-- Witness for C8: a request with no signature header at all. -/
theorem c8_invalid_signature_generic_500_witness :
    processRequestOld cHmac cServer cParseQueued cEnvOK ⟨[1, 2, 3], none, "workflow_job"⟩ =
      ⟨[], [], some ⟨500, "failed to validate payload", some (vErrMsg .missingHeader)⟩⟩ :=
  c8_invalid_signature_generic_500 cHmac cServer cParseQueued cEnvOK
    ⟨[1, 2, 3], none, "workflow_job"⟩ .missingHeader rfl

/-- Claim C10: every `apiResponse` returned by `processRequest` has status 200
exactly when its error is nil, every error outcome carries a 4xx/5xx status,
and `handleWebhook` writes exactly that status code together with the
HTML-escaped message. -/
theorem c10_response_invariant
    (hmacFn : List Nat → List Nat → List Nat) (s : ServerCfg)
    (parse : String → List Nat → Except String GHEvent) (env : Env) (r : GoRequest)
    (resp : ApiResponse)
    (h : (processRequestOld hmacFn s parse env r).out = some resp) :
    ((resp.code = 200 ↔ resp.error = none)
     ∧ (resp.error ≠ none → resp.code = 400 ∨ resp.code = 500))
    ∧ handleWebhookOld hmacFn s parse env r =
        some (resp.code, htmlEscapeString resp.message) := by
  constructor
  · unfold processRequestOld at h
    repeat' split at h
    all_goals try replace h := Option.some.inj h
    all_goals try obtain rfl := h
    all_goals simp_all
  · unfold handleWebhookOld
    rw [h]

/-- Witness for C10 at the concrete happy-path request (response 200 /
"runner started" / nil error). -/
theorem c10_response_invariant_witness :
    (((⟨200, runnerStartedMsg, none⟩ : ApiResponse).code = 200 ↔
        (⟨200, runnerStartedMsg, none⟩ : ApiResponse).error = none)
     ∧ ((⟨200, runnerStartedMsg, none⟩ : ApiResponse).error ≠ none →
        (⟨200, runnerStartedMsg, none⟩ : ApiResponse).code = 400 ∨
        (⟨200, runnerStartedMsg, none⟩ : ApiResponse).code = 500))
    ∧ handleWebhookOld cHmac cServer cParseQueued cEnvOK cReqWJ =
        some ((⟨200, runnerStartedMsg, none⟩ : ApiResponse).code,
              htmlEscapeString (⟨200, runnerStartedMsg, none⟩ : ApiResponse).message) :=
  c10_response_invariant cHmac cServer cParseQueued cEnvOK cReqWJ
    ⟨200, runnerStartedMsg, none⟩ rfl
